import Mathlib

/-!
Shallow embedding of the feast-framework-plus data layer: the four tables
created in the initial migration, the row-level-security policies (including
the replacement `user_roles` SELECT policy from the later migration), the
`has_role` security-definer function, the `handle_updated_at` trigger, the
`ON DELETE CASCADE` foreign keys, and the public menu fetch performed by
`RestaurantMenu.tsx`.

Conventions:
- surrogate UUIDs are modelled as `Nat`;
- timestamps (`TIMESTAMPTZ`) are modelled as `Nat` instants;
- `DECIMAL(10, 2)` prices are modelled exactly as an integer number of cents
  (`Int`), which represents every two-decimal value without drift;
- SQL `NULL`able columns are `Option`s.
-/

namespace Feast

/-- The `app_role` enum: `CREATE TYPE public.app_role AS ENUM ('admin', 'manager', 'user')`. -/
inductive AppRole where
  | admin
  | manager
  | user
deriving DecidableEq

/-- A caller identity as delivered by the auth provider: anonymous, or an
authenticated user id (`auth.uid()`). -/
inductive Caller where
  | anon
  | auth (uid : Nat)
deriving DecidableEq

/-- `TO authenticated` applies to exactly the non-anonymous callers. -/
def Caller.isAuthenticated : Caller → Bool
  | .anon => false
  | .auth _ => true

/-- A row of `public.restaurants`. -/
structure RestaurantRow where
  id : Nat
  name : String
  slug : String
  is_active : Bool
  created_at : Nat
  updated_at : Nat
deriving DecidableEq

/-- A row of `public.menu_categories` (`restaurant_id` is `NOT NULL REFERENCES
restaurants ON DELETE CASCADE`). -/
structure MenuCategoryRow where
  id : Nat
  restaurant_id : Nat
  name : String
  description : Option String
  display_order : Int
  is_active : Bool
  created_at : Nat
  updated_at : Nat
deriving DecidableEq

/-- A row of `public.menu_items` (`category_id` is `NOT NULL REFERENCES
menu_categories ON DELETE CASCADE`; `price` is `DECIMAL(10, 2)`, in cents here). -/
structure MenuItemRow where
  id : Nat
  category_id : Nat
  name : String
  description : Option String
  price : Int
  image_url : Option String
  is_vegetarian : Bool
  is_vegan : Bool
  is_spicy : Bool
  is_available : Bool
  display_order : Int
  created_at : Nat
  updated_at : Nat
deriving DecidableEq

/-- A row of `public.user_roles` (`restaurant_id` is nullable, `REFERENCES
restaurants ON DELETE CASCADE`). -/
structure UserRoleRow where
  id : Nat
  user_id : Nat
  role : AppRole
  restaurant_id : Option Nat
  created_at : Nat
deriving DecidableEq

/-- The database state: the four tables of the schema. -/
structure DB where
  restaurants : List RestaurantRow
  menu_categories : List MenuCategoryRow
  menu_items : List MenuItemRow
  user_roles : List UserRoleRow
deriving DecidableEq

/-- `public.has_role(_user_id, _role)`: `SECURITY DEFINER`, so it reads
`public.user_roles` directly, bypassing row-level security; it tests
`EXISTS (SELECT 1 FROM user_roles WHERE user_id = _user_id AND role = _role)`,
with no condition on `restaurant_id`. -/
def has_role (db : DB) (uid : Nat) (r : AppRole) : Bool :=
  db.user_roles.any (fun ur => ur.user_id == uid && decide (ur.role = r))

/-- `public.has_role(auth.uid(), 'admin')` as evaluated inside a policy body:
for an anonymous caller `auth.uid()` is `NULL` and the check is false. -/
def callerIsAdmin (db : DB) : Caller → Bool
  | .anon => false
  | .auth u => has_role db u AppRole.admin

/-- The SQL commands row-level-security policies discriminate on. -/
inductive SqlOp where
  | select
  | insert
  | update
  | delete
deriving DecidableEq

/-- One `CREATE POLICY` declaration over rows of type `Row`: the command it is
`FOR` (`none` means `FOR ALL`), whether it is restricted `TO authenticated`,
its `USING` clause and its `WITH CHECK` clause (policies declared with only a
`USING` clause never contribute a check; such a `checkPred` is `false`). -/
structure Policy (Row : Type) where
  cmd : Option SqlOp
  toAuthenticated : Bool
  usingPred : DB → Caller → Row → Bool
  checkPred : DB → Caller → Row → Bool

/-- Whether a policy contributes to a given command for a given caller:
its `FOR` clause covers the command and its `TO` clause covers the caller. -/
def Policy.applies (p : Policy Row) (op : SqlOp) (c : Caller) : Bool :=
  (match p.cmd with
   | none => true
   | some o => o == op) &&
  (!p.toAuthenticated || c.isAuthenticated)

/-- Permissive-policy semantics: an existing row is visible to a command iff
the `USING` clause of some applicable policy accepts it; with no matching
policy the row is invisible (closed world). -/
def rowVisible (ps : List (Policy Row)) (db : DB) (c : Caller) (op : SqlOp) (row : Row) : Bool :=
  ps.any (fun p => p.applies op c && p.usingPred db c row)

/-- Permissive-policy semantics: a new row passes iff the `WITH CHECK` clause
of some applicable policy accepts it; with no matching policy it is rejected
(closed world). -/
def rowCheckOk (ps : List (Policy Row)) (db : DB) (c : Caller) (op : SqlOp) (row : Row) : Bool :=
  ps.any (fun p => p.applies op c && p.checkPred db c row)

/-- `SELECT` sees a row iff it is visible. -/
def selectAllowed (ps : List (Policy Row)) (db : DB) (c : Caller) (row : Row) : Bool :=
  rowVisible ps db c SqlOp.select row

/-- `INSERT` of a new row is allowed iff the row passes a check clause. -/
def insertAllowed (ps : List (Policy Row)) (db : DB) (c : Caller) (newRow : Row) : Bool :=
  rowCheckOk ps db c SqlOp.insert newRow

/-- `UPDATE` is allowed iff the existing row is visible to `UPDATE` and the
updated row passes a check clause. -/
def updateAllowed (ps : List (Policy Row)) (db : DB) (c : Caller) (oldRow newRow : Row) : Bool :=
  rowVisible ps db c SqlOp.update oldRow && rowCheckOk ps db c SqlOp.update newRow

/-- `DELETE` of a row is allowed iff the row is visible to `DELETE`. -/
def deleteAllowed (ps : List (Policy Row)) (db : DB) (c : Caller) (row : Row) : Bool :=
  rowVisible ps db c SqlOp.delete row

/-- `"Anyone can view active restaurants" ON restaurants FOR SELECT USING (is_active = true)`. -/
def anyoneViewActiveRestaurants : Policy RestaurantRow :=
  { cmd := some SqlOp.select, toAuthenticated := false,
    usingPred := fun _ _ row => row.is_active,
    checkPred := fun _ _ _ => false }

/-- `"Admins can manage restaurants" ON restaurants FOR ALL TO authenticated
USING (has_role(auth.uid(), 'admin')) WITH CHECK (has_role(auth.uid(), 'admin'))`. -/
def adminsManageRestaurants : Policy RestaurantRow :=
  { cmd := none, toAuthenticated := true,
    usingPred := fun db c _ => callerIsAdmin db c,
    checkPred := fun db c _ => callerIsAdmin db c }

/-- All policies on `public.restaurants`. -/
def restaurantPolicies : List (Policy RestaurantRow) :=
  [anyoneViewActiveRestaurants, adminsManageRestaurants]

/-- `"Anyone can view active categories" ON menu_categories FOR SELECT USING (is_active = true)`. -/
def anyoneViewActiveCategories : Policy MenuCategoryRow :=
  { cmd := some SqlOp.select, toAuthenticated := false,
    usingPred := fun _ _ row => row.is_active,
    checkPred := fun _ _ _ => false }

/-- `"Admins can manage categories" ON menu_categories FOR ALL TO authenticated
USING (has_role(auth.uid(), 'admin')) WITH CHECK (has_role(auth.uid(), 'admin'))`. -/
def adminsManageCategories : Policy MenuCategoryRow :=
  { cmd := none, toAuthenticated := true,
    usingPred := fun db c _ => callerIsAdmin db c,
    checkPred := fun db c _ => callerIsAdmin db c }

/-- All policies on `public.menu_categories`. -/
def menuCategoryPolicies : List (Policy MenuCategoryRow) :=
  [anyoneViewActiveCategories, adminsManageCategories]

/-- `"Anyone can view available items" ON menu_items FOR SELECT USING (is_available = true)`. -/
def anyoneViewAvailableItems : Policy MenuItemRow :=
  { cmd := some SqlOp.select, toAuthenticated := false,
    usingPred := fun _ _ row => row.is_available,
    checkPred := fun _ _ _ => false }

/-- `"Admins can manage items" ON menu_items FOR ALL TO authenticated
USING (has_role(auth.uid(), 'admin')) WITH CHECK (has_role(auth.uid(), 'admin'))`. -/
def adminsManageItems : Policy MenuItemRow :=
  { cmd := none, toAuthenticated := true,
    usingPred := fun db c _ => callerIsAdmin db c,
    checkPred := fun db c _ => callerIsAdmin db c }

/-- All policies on `public.menu_items`. -/
def menuItemPolicies : List (Policy MenuItemRow) :=
  [anyoneViewAvailableItems, adminsManageItems]

/-- `"Users can only view their own roles" ON user_roles FOR SELECT TO authenticated
USING (user_id = auth.uid() OR has_role(auth.uid(), 'admin'))` — the replacement
policy installed by the later migration after dropping
`"Users can view their own roles"`. -/
def usersViewOwnRoles : Policy UserRoleRow :=
  { cmd := some SqlOp.select, toAuthenticated := true,
    usingPred := fun db c row =>
      match c with
      | .anon => false
      | .auth u => row.user_id == u || has_role db u AppRole.admin,
    checkPred := fun _ _ _ => false }

/-- `"Admins can manage all roles" ON user_roles FOR ALL TO authenticated
USING (has_role(auth.uid(), 'admin')) WITH CHECK (has_role(auth.uid(), 'admin'))`. -/
def adminsManageAllRoles : Policy UserRoleRow :=
  { cmd := none, toAuthenticated := true,
    usingPred := fun db c _ => callerIsAdmin db c,
    checkPred := fun db c _ => callerIsAdmin db c }

/-- All policies on `public.user_roles` after the later migration. -/
def userRolePolicies : List (Policy UserRoleRow) :=
  [usersViewOwnRoles, adminsManageAllRoles]

/-- The `user_roles` rows a caller can read: the table filtered through the
`SELECT` policies. -/
def visibleUserRoles (db : DB) (c : Caller) : List UserRoleRow :=
  db.user_roles.filter (fun row => selectAllowed userRolePolicies db c row)

/-! ## The public menu fetch (`RestaurantMenu.tsx`, `fetchRestaurantData`) -/

/-- Stable insertion of an element into a list already in `le`-order. -/
def insertOrdered (le : α → α → Bool) (a : α) : List α → List α
  | [] => [a]
  | b :: bs => if le a b then a :: b :: bs else b :: insertOrdered le a bs

/-- Ascending stable sort, modelling the PostgREST `.order(...)` modifier. -/
def orderBy (le : α → α → Bool) : List α → List α
  | [] => []
  | a :: as => insertOrdered le a (orderBy le as)

/-- PostgREST `.single()`: succeeds with the row iff the filtered result holds
exactly one row, and errors otherwise. -/
def single? : List α → Option α
  | [a] => some a
  | _ => none

/-- `from("restaurants").select("*").eq("slug", slug).eq("is_active", true).single()`. -/
def fetchRestaurantBySlug (db : DB) (slug : String) : Option RestaurantRow :=
  single? (db.restaurants.filter (fun r => r.slug == slug && r.is_active))

/-- `from("menu_categories").select("*").eq("restaurant_id", rid).eq("is_active", true).order("display_order")`. -/
def fetchActiveCategories (db : DB) (rid : Nat) : List MenuCategoryRow :=
  orderBy (fun a b => a.display_order ≤ b.display_order)
    (db.menu_categories.filter (fun ca => ca.restaurant_id == rid && ca.is_active))

/-- `from("menu_items").select("*").in("category_id", catIds).eq("is_available", true).order("display_order")`. -/
def fetchAvailableItems (db : DB) (catIds : List Nat) : List MenuItemRow :=
  orderBy (fun a b => a.display_order ≤ b.display_order)
    (db.menu_items.filter (fun i => catIds.contains i.category_id && i.is_available))

/-- The data behind a rendered menu page. -/
structure MenuPageData where
  restaurant : RestaurantRow
  categories : List MenuCategoryRow
  items : List MenuItemRow
deriving DecidableEq

/-- The observable outcome of `RestaurantMenu` for a slug: when the restaurant
fetch errors (no unique active row), the caught error leaves `restaurant` null
and the page renders the not-found view (`none`); otherwise the page shows the
restaurant with its active categories and their available items. -/
def renderMenuPage (db : DB) (slug : String) : Option MenuPageData :=
  match fetchRestaurantBySlug db slug with
  | none => none
  | some r =>
    let cats := fetchActiveCategories db r.id
    some ⟨r, cats, fetchAvailableItems db (cats.map (fun ca => ca.id))⟩

/-! ## `handle_updated_at` trigger and the admin update paths -/

/-- The `SET` list of an `UPDATE public.menu_items`: `none` means the column
is not in the `SET` list. The admin client's `itemData` spreads the form
fields `category_id, name, description, price, image_url, is_vegetarian,
is_vegan, is_spicy, display_order`; `is_available` and `updated_at` are
included to model an arbitrary caller-constructed `SET` list, in particular
one supplying its own timestamp — the trigger must override it regardless.
`created_at` is in no repository `SET` list at all. -/
structure MenuItemAssign where
  category_id : Option Nat := none
  name : Option String := none
  description : Option (Option String) := none
  price : Option Int := none
  image_url : Option (Option String) := none
  is_vegetarian : Option Bool := none
  is_vegan : Option Bool := none
  is_spicy : Option Bool := none
  is_available : Option Bool := none
  display_order : Option Int := none
  updated_at : Option Nat := none

/-- The `NEW` row an `UPDATE` proposes: the old row with the `SET` columns
replaced. -/
def applyMenuItemAssign (row : MenuItemRow) (a : MenuItemAssign) : MenuItemRow :=
  { row with
    category_id := a.category_id.getD row.category_id
    name := a.name.getD row.name
    description := a.description.getD row.description
    price := a.price.getD row.price
    image_url := a.image_url.getD row.image_url
    is_vegetarian := a.is_vegetarian.getD row.is_vegetarian
    is_vegan := a.is_vegan.getD row.is_vegan
    is_spicy := a.is_spicy.getD row.is_spicy
    is_available := a.is_available.getD row.is_available
    display_order := a.display_order.getD row.display_order
    updated_at := a.updated_at.getD row.updated_at }

/-- `public.handle_updated_at()`: `BEFORE UPDATE ... NEW.updated_at = now(); RETURN NEW`. -/
def handle_updated_at (now : Nat) (new : MenuItemRow) : MenuItemRow :=
  { new with updated_at := now }

/-- The stored result of an `UPDATE` on `menu_items` at time `now`: the `SET`
columns are applied, then the `set_menu_items_updated_at` trigger rewrites
`NEW.updated_at`. -/
def updateMenuItemRow (now : Nat) (row : MenuItemRow) (a : MenuItemAssign) : MenuItemRow :=
  handle_updated_at now (applyMenuItemAssign row a)

/-- An `INSERT` into `menu_items`: the client supplies the item columns and
the column defaults set `created_at = now()` and `updated_at = now()`. -/
def insertMenuItemRow (now : Nat) (id category_id : Nat) (name : String)
    (description : Option String) (price : Int) (image_url : Option String)
    (is_vegetarian is_vegan is_spicy is_available : Bool)
    (display_order : Int) : MenuItemRow :=
  { id := id, category_id := category_id, name := name, description := description,
    price := price, image_url := image_url, is_vegetarian := is_vegetarian,
    is_vegan := is_vegan, is_spicy := is_spicy, is_available := is_available,
    display_order := display_order, created_at := now, updated_at := now }

/-- The `SET` list of an `UPDATE public.restaurants`, over the columns the
row model carries: the admin client's `formData` assigns `name` and `slug`
(among presentation columns not modelled); `is_active` and `updated_at`
generalize to an arbitrary caller-constructed `SET` list. `created_at` is in
no repository `SET` list. -/
structure RestaurantAssign where
  name : Option String := none
  slug : Option String := none
  is_active : Option Bool := none
  updated_at : Option Nat := none

/-- The `NEW` row an `UPDATE` on `restaurants` proposes. -/
def applyRestaurantAssign (row : RestaurantRow) (a : RestaurantAssign) : RestaurantRow :=
  { row with
    name := a.name.getD row.name
    slug := a.slug.getD row.slug
    is_active := a.is_active.getD row.is_active
    updated_at := a.updated_at.getD row.updated_at }

/-- `public.handle_updated_at()` as fired by the `set_restaurants_updated_at`
`BEFORE UPDATE` trigger: `NEW.updated_at = now(); RETURN NEW`. -/
def handle_updated_at_restaurant (now : Nat) (new : RestaurantRow) : RestaurantRow :=
  { new with updated_at := now }

/-- The stored result of an `UPDATE` on `restaurants` at time `now`. -/
def updateRestaurantRow (now : Nat) (row : RestaurantRow) (a : RestaurantAssign) : RestaurantRow :=
  handle_updated_at_restaurant now (applyRestaurantAssign row a)

/-- An `INSERT` into `restaurants`: the column defaults set
`created_at = now()` and `updated_at = now()`. -/
def insertRestaurantRow (now : Nat) (id : Nat) (name slug : String)
    (is_active : Bool) : RestaurantRow :=
  { id := id, name := name, slug := slug, is_active := is_active,
    created_at := now, updated_at := now }

/-- The `SET` list of an `UPDATE public.menu_categories`: the admin client's
`formData` assigns `restaurant_id, name, description, display_order`;
`is_active` and `updated_at` generalize to an arbitrary caller-constructed
`SET` list. `created_at` is in no repository `SET` list. -/
structure MenuCategoryAssign where
  restaurant_id : Option Nat := none
  name : Option String := none
  description : Option (Option String) := none
  display_order : Option Int := none
  is_active : Option Bool := none
  updated_at : Option Nat := none

/-- The `NEW` row an `UPDATE` on `menu_categories` proposes. -/
def applyMenuCategoryAssign (row : MenuCategoryRow) (a : MenuCategoryAssign) : MenuCategoryRow :=
  { row with
    restaurant_id := a.restaurant_id.getD row.restaurant_id
    name := a.name.getD row.name
    description := a.description.getD row.description
    display_order := a.display_order.getD row.display_order
    is_active := a.is_active.getD row.is_active
    updated_at := a.updated_at.getD row.updated_at }

/-- `public.handle_updated_at()` as fired by the
`set_menu_categories_updated_at` `BEFORE UPDATE` trigger. -/
def handle_updated_at_category (now : Nat) (new : MenuCategoryRow) : MenuCategoryRow :=
  { new with updated_at := now }

/-- The stored result of an `UPDATE` on `menu_categories` at time `now`. -/
def updateMenuCategoryRow (now : Nat) (row : MenuCategoryRow) (a : MenuCategoryAssign) : MenuCategoryRow :=
  handle_updated_at_category now (applyMenuCategoryAssign row a)

/-- An `INSERT` into `menu_categories`: the column defaults set
`created_at = now()` and `updated_at = now()`. -/
def insertMenuCategoryRow (now : Nat) (id restaurant_id : Nat) (name : String)
    (description : Option String) (display_order : Int) (is_active : Bool) : MenuCategoryRow :=
  { id := id, restaurant_id := restaurant_id, name := name,
    description := description, display_order := display_order,
    is_active := is_active, created_at := now, updated_at := now }

/-! ## Cascade deletion (`ON DELETE CASCADE` foreign keys) -/

/-- `DELETE FROM restaurants WHERE id = rid`, with the three `ON DELETE
CASCADE` foreign keys: the restaurant's categories are removed, every item of a
removed category is removed, and every `user_roles` row whose `restaurant_id`
references the restaurant is removed — all in the one statement's transaction. -/
def deleteRestaurant (db : DB) (rid : Nat) : DB :=
  let deadCats := (db.menu_categories.filter (fun ca => ca.restaurant_id == rid)).map (fun ca => ca.id)
  { restaurants := db.restaurants.filter (fun r => !(r.id == rid))
    menu_categories := db.menu_categories.filter (fun ca => !(ca.restaurant_id == rid))
    menu_items := db.menu_items.filter (fun i => !(deadCats.contains i.category_id))
    user_roles := db.user_roles.filter (fun ur => !(ur.restaurant_id == some rid)) }

/-! ## `user_roles` uniqueness (`UNIQUE(user_id, role, restaurant_id)`) -/

/-- SQL comparison of two nullable key columns as a `UNIQUE` constraint makes
it: two values collide only when both are non-`NULL` and equal — `NULL`s are
distinct from everything, including each other. -/
def sqlNullableKeyEq (a b : Option Nat) : Bool :=
  match a, b with
  | some x, some y => x == y
  | _, _ => false

/-- Whether inserting `new` would collide with an existing row under
`UNIQUE(user_id, role, restaurant_id)`. -/
def userRoleConflict (db : DB) (new : UserRoleRow) : Bool :=
  db.user_roles.any (fun ur =>
    ur.user_id == new.user_id && decide (ur.role = new.role) &&
    sqlNullableKeyEq ur.restaurant_id new.restaurant_id)

/-- `INSERT INTO user_roles`: rejected (`none`) when the unique constraint is
violated, otherwise the row is added. -/
def insertUserRole (db : DB) (new : UserRoleRow) : Option DB :=
  if userRoleConflict db new then none
  else some { db with user_roles := new :: db.user_roles }

/-! ## The `MenuItemsAdmin` form submit path -/

/-- The `MenuItemsAdmin` form state, after `parseFloat` of the price field.
The price input is `type="number" step="0.01"`, so an accepted value is a
whole number of cents; it is modelled in cents. -/
structure MenuItemForm where
  category_id : Nat
  name : String
  description : Option String
  price : Int
  image_url : Option String
  is_vegetarian : Bool
  is_vegan : Bool
  is_spicy : Bool
  display_order : Int
deriving DecidableEq

/-- HTML constraint validation of the price input (`min="0"`, `required`):
the browser refuses to submit the form while the value is below the minimum. -/
def priceInputOk (price : Int) : Bool :=
  decide (0 ≤ price)

/-- `handleSubmit` of `MenuItemsAdmin`, gated by the form validation: with
`editing = some itemId` it runs `update(itemData).eq("id", itemId)` on the
matching row (the `handle_updated_at` trigger firing on it), otherwise it runs
`insert([itemData])` as a fresh row `newId`; an invalid form never submits. -/
def submitMenuItemForm (now : Nat) (db : DB) (form : MenuItemForm)
    (editing : Option Nat) (newId : Nat) : Option DB :=
  if priceInputOk form.price then
    match editing with
    | some itemId =>
        some { db with menu_items := db.menu_items.map (fun row =>
          if row.id == itemId then
            updateMenuItemRow now row
              { category_id := some form.category_id, name := some form.name,
                description := some form.description, price := some form.price,
                image_url := some form.image_url,
                is_vegetarian := some form.is_vegetarian,
                is_vegan := some form.is_vegan, is_spicy := some form.is_spicy,
                display_order := some form.display_order }
          else row) }
    | none =>
        some { db with menu_items :=
          (insertMenuItemRow now newId form.category_id form.name form.description
            form.price form.image_url form.is_vegetarian form.is_vegan
            form.is_spicy true form.display_order) :: db.menu_items }
  else none

/-! ## Concrete rows: the scenario of the testable-properties section -/

/-- The scenario restaurant `{slug: "pizza-palace", is_active: true}`. -/
def pizzaPalace : RestaurantRow :=
  { id := 1, name := "Pizza Palace", slug := "pizza-palace", is_active := true,
    created_at := 0, updated_at := 0 }

/-- An inactive restaurant, present in the table but hidden from the public. -/
def ghostKitchen : RestaurantRow :=
  { id := 2, name := "Ghost Kitchen", slug := "ghost-kitchen", is_active := false,
    created_at := 0, updated_at := 0 }

/-- The scenario category `{name: "Starters", is_active: true}`. -/
def starters : MenuCategoryRow :=
  { id := 10, restaurant_id := 1, name := "Starters", description := none,
    display_order := 0, is_active := true, created_at := 0, updated_at := 0 }

/-- The scenario item `{name: "Garlic Bread", price: 149.00, is_available: true}`
(price in cents). -/
def garlicBread : MenuItemRow :=
  { id := 100, category_id := 10, name := "Garlic Bread", description := none,
    price := 14900, image_url := none, is_vegetarian := true, is_vegan := false,
    is_spicy := false, is_available := true, display_order := 0,
    created_at := 0, updated_at := 0 }

/-- An unavailable item in the active scenario category. -/
def secretSoup : MenuItemRow :=
  { id := 101, category_id := 10, name := "Secret Soup", description := none,
    price := 9900, image_url := none, is_vegetarian := false, is_vegan := false,
    is_spicy := true, is_available := false, display_order := 1,
    created_at := 0, updated_at := 0 }

/-- An `admin` grant for user 3, scoped to restaurant 1. -/
def adminGrant : UserRoleRow :=
  { id := 1000, user_id := 3, role := AppRole.admin, restaurant_id := some 1,
    created_at := 0 }

/-- A global `user` grant for user 7, their only grant. -/
def userGrant : UserRoleRow :=
  { id := 1001, user_id := 7, role := AppRole.user, restaurant_id := none,
    created_at := 0 }

/-- The concrete database of the scenario. -/
def scenarioDb : DB :=
  { restaurants := [pizzaPalace, ghostKitchen]
    menu_categories := [starters]
    menu_items := [garlicBread, secretSoup]
    user_roles := [adminGrant, userGrant] }

/-! ## Helper lemmas -/

theorem mem_insertOrdered (le : α → α → Bool) (a x : α) (l : List α) :
    x ∈ insertOrdered le a l ↔ x = a ∨ x ∈ l := by
  induction l with
  | nil => simp [insertOrdered]
  | cons b bs ih =>
    rw [insertOrdered]
    by_cases hab : le a b = true
    · rw [if_pos hab]
      simp only [List.mem_cons]
    · rw [if_neg hab]
      simp only [List.mem_cons, ih]
      tauto

theorem mem_orderBy (le : α → α → Bool) (x : α) (l : List α) :
    x ∈ orderBy le l ↔ x ∈ l := by
  induction l with
  | nil => simp [orderBy]
  | cons b bs ih => simp [orderBy, mem_insertOrdered, ih]

theorem length_filter_not_add_countP (p : α → Bool) (l : List α) :
    (l.filter (fun x => !(p x))).length + l.countP p = l.length := by
  induction l with
  | nil => simp
  | cons b bs ih =>
    cases hb : p b <;> simp [List.filter_cons, List.countP_cons, hb] <;> omega

theorem has_role_iff_exists (db : DB) (u : Nat) (r : AppRole) :
    has_role db u r = true ↔ ∃ ur, ur ∈ db.user_roles ∧ ur.user_id = u ∧ ur.role = r := by
  simp [has_role, List.any_eq_true, and_assoc]

theorem has_role_admin_false_of_only_user (db : DB) (u : Nat)
    (h : ∀ ur ∈ db.user_roles, ur.user_id = u → ur.role = AppRole.user) :
    has_role db u AppRole.admin = false := by
  rw [← Bool.not_eq_true, has_role_iff_exists]
  rintro ⟨ur, hmem, huid, hrole⟩
  have := h ur hmem huid
  rw [hrole] at this
  cases this

/-! ## Claims -/

/-- C1: for every caller that is not an authenticated admin, every insert,
update and delete on `restaurants`, `menu_categories`, `menu_items` and
`user_roles` is denied; each of the twelve write permissions equals the
admin check, which holds exactly for an authenticated caller with an `admin`
grant — and the evaluator itself denies whenever no policy matches
(closed world), since permission is an `any` over the policy list. -/
theorem rls_write_requires_admin (db : DB) (c : Caller)
    (r rOld : RestaurantRow) (mc mcOld : MenuCategoryRow)
    (mi miOld : MenuItemRow) (ur urOld : UserRoleRow) :
    insertAllowed restaurantPolicies db c r = callerIsAdmin db c
  ∧ updateAllowed restaurantPolicies db c rOld r = callerIsAdmin db c
  ∧ deleteAllowed restaurantPolicies db c rOld = callerIsAdmin db c
  ∧ insertAllowed menuCategoryPolicies db c mc = callerIsAdmin db c
  ∧ updateAllowed menuCategoryPolicies db c mcOld mc = callerIsAdmin db c
  ∧ deleteAllowed menuCategoryPolicies db c mcOld = callerIsAdmin db c
  ∧ insertAllowed menuItemPolicies db c mi = callerIsAdmin db c
  ∧ updateAllowed menuItemPolicies db c miOld mi = callerIsAdmin db c
  ∧ deleteAllowed menuItemPolicies db c miOld = callerIsAdmin db c
  ∧ insertAllowed userRolePolicies db c ur = callerIsAdmin db c
  ∧ updateAllowed userRolePolicies db c urOld ur = callerIsAdmin db c
  ∧ deleteAllowed userRolePolicies db c urOld = callerIsAdmin db c
  ∧ (callerIsAdmin db c = true ↔
       c.isAuthenticated = true ∧ ∃ u, c = Caller.auth u ∧ has_role db u AppRole.admin = true) := by
  cases c with
  | anon =>
    refine ⟨?_, ?_, ?_, ?_, ?_, ?_, ?_, ?_, ?_, ?_, ?_, ?_, ?_⟩ <;>
      simp [insertAllowed, updateAllowed, deleteAllowed, rowVisible, rowCheckOk,
        Policy.applies, restaurantPolicies, menuCategoryPolicies, menuItemPolicies,
        userRolePolicies, anyoneViewActiveRestaurants, adminsManageRestaurants,
        anyoneViewActiveCategories, adminsManageCategories, anyoneViewAvailableItems,
        adminsManageItems, usersViewOwnRoles, adminsManageAllRoles,
        callerIsAdmin, Caller.isAuthenticated]
  | auth u =>
    refine ⟨?_, ?_, ?_, ?_, ?_, ?_, ?_, ?_, ?_, ?_, ?_, ?_, ?_⟩ <;>
      simp [insertAllowed, updateAllowed, deleteAllowed, rowVisible, rowCheckOk,
        Policy.applies, restaurantPolicies, menuCategoryPolicies, menuItemPolicies,
        userRolePolicies, anyoneViewActiveRestaurants, adminsManageRestaurants,
        anyoneViewActiveCategories, adminsManageCategories, anyoneViewAvailableItems,
        adminsManageItems, usersViewOwnRoles, adminsManageAllRoles,
        callerIsAdmin, Caller.isAuthenticated]

/-- C2, counterexample: user 3 is an authenticated caller holding an `admin`
grant; the `FOR ALL` policy `"Admins can manage restaurants"` also covers
`SELECT`, so this caller may select the `ghostKitchen` row even though it has
`is_active = false` — refuting "a select is allowed exactly when the row has
`is_active = true`" for every caller. -/
theorem admin_select_inactive_restaurant :
    selectAllowed restaurantPolicies scenarioDb (Caller.auth 3) ghostKitchen = true
  ∧ ghostKitchen.is_active = false := by
  exact ⟨rfl, rfl⟩

/-- C2, amended: an anonymous select of a Restaurant row is allowed exactly
when `is_active = true`, and likewise for every caller without an `admin`
grant (an authenticated admin may additionally select inactive rows); and a
public menu fetch only ever returns `MenuItem` rows with
`is_available = true`, even when their category is active. -/
theorem select_is_active_for_non_admins (db : DB) (c : Caller)
    (r : RestaurantRow) (slug : String) :
    selectAllowed restaurantPolicies db Caller.anon r = r.is_active
  ∧ (callerIsAdmin db c = false → selectAllowed restaurantPolicies db c r = r.is_active)
  ∧ (∀ p, renderMenuPage db slug = some p → ∀ i ∈ p.items, i.is_available = true) := by
  refine ⟨?_, ?_, ?_⟩
  · simp [selectAllowed, rowVisible, Policy.applies, restaurantPolicies,
      anyoneViewActiveRestaurants, adminsManageRestaurants, Caller.isAuthenticated]
  · intro hna
    cases c with
    | anon =>
      simp [selectAllowed, rowVisible, Policy.applies, restaurantPolicies,
        anyoneViewActiveRestaurants, adminsManageRestaurants, Caller.isAuthenticated]
    | auth u =>
      simp only [callerIsAdmin] at hna
      simp [selectAllowed, rowVisible, Policy.applies, restaurantPolicies,
        anyoneViewActiveRestaurants, adminsManageRestaurants,
        Caller.isAuthenticated, callerIsAdmin, hna]
  · intro p hp i hi
    unfold renderMenuPage at hp
    cases hfetch : fetchRestaurantBySlug db slug with
    | none => rw [hfetch] at hp; cases hp
    | some rr =>
      rw [hfetch] at hp
      cases hp
      have hmem := (mem_orderBy _ i _).mp hi
      have := List.mem_filter.mp hmem
      exact (Bool.and_eq_true _ _).mp this.2 |>.2

/-- C2 witness: user 7 holds no admin grant, so their restaurant select follows
`is_active`; the scenario fetch returns only available items. -/
theorem select_is_active_for_non_admins_witness :
    callerIsAdmin scenarioDb (Caller.auth 7) = false
  ∧ selectAllowed restaurantPolicies scenarioDb (Caller.auth 7) ghostKitchen = ghostKitchen.is_active
  ∧ garlicBread.is_available = true := by
  have h := select_is_active_for_non_admins scenarioDb (Caller.auth 7) ghostKitchen "pizza-palace"
  refine ⟨by decide, h.2.1 (by decide), ?_⟩
  exact h.2.2 ⟨pizzaPalace, [starters], [garlicBread]⟩ (by decide) garlicBread (by decide)

/-- C3: `has_role` holds exactly when some `user_roles` row matches the
identity and role — its `WHERE` clause never mentions `restaurant_id`, so any
matching grant, whatever its scope, suffices; consequently an `admin` grant
scoped to any one restaurant authorizes writes on every restaurant row; and
since the function is `SECURITY DEFINER` it reads the table itself, not the
caller-filtered view — an anonymous caller can read no `user_roles` row at
all, yet `has_role` (a function of the table alone, with no caller argument)
still decides membership. -/
theorem has_role_ignores_restaurant_scope (db : DB) (u : Nat) (r : AppRole)
    (rOld rNew : RestaurantRow) :
    (has_role db u r = true ↔ ∃ ur, ur ∈ db.user_roles ∧ ur.user_id = u ∧ ur.role = r)
  ∧ visibleUserRoles db Caller.anon = []
  ∧ (∀ g, g ∈ db.user_roles → g.user_id = u → g.role = AppRole.admin →
       insertAllowed restaurantPolicies db (Caller.auth u) rNew = true
     ∧ updateAllowed restaurantPolicies db (Caller.auth u) rOld rNew = true
     ∧ deleteAllowed restaurantPolicies db (Caller.auth u) rOld = true) := by
  refine ⟨has_role_iff_exists db u r, ?_, ?_⟩
  · simp [visibleUserRoles, selectAllowed, rowVisible, Policy.applies,
      userRolePolicies, usersViewOwnRoles, adminsManageAllRoles,
      callerIsAdmin, Caller.isAuthenticated]
  · intro g hg hu hr
    have hadmin : has_role db u AppRole.admin = true :=
      (has_role_iff_exists db u AppRole.admin).mpr ⟨g, hg, hu, hr⟩
    refine ⟨?_, ?_, ?_⟩ <;>
      simp [insertAllowed, updateAllowed, deleteAllowed, rowVisible, rowCheckOk,
        Policy.applies, restaurantPolicies, anyoneViewActiveRestaurants,
        adminsManageRestaurants, callerIsAdmin, Caller.isAuthenticated, hadmin]

/-- C3 witness: user 3 has an `admin` grant scoped to restaurant 1
(`adminGrant`), and it authorizes deleting restaurant 2 (`ghostKitchen`). -/
theorem has_role_ignores_restaurant_scope_witness :
    deleteAllowed restaurantPolicies scenarioDb (Caller.auth 3) ghostKitchen = true
  ∧ adminGrant.restaurant_id = some 1 ∧ ghostKitchen.id = 2 := by
  have h := has_role_ignores_restaurant_scope scenarioDb 3 AppRole.admin
    ghostKitchen ghostKitchen
  exact ⟨(h.2.2 adminGrant (by decide) rfl rfl).2.2, rfl, rfl⟩

/-- C4: an authenticated caller whose only grants are `user` grants reads,
through the `user_roles` `SELECT` policies, exactly the rows whose `user_id`
is their own id. -/
theorem user_reads_exactly_own_roles (db : DB) (u : Nat)
    (h : ∀ ur ∈ db.user_roles, ur.user_id = u → ur.role = AppRole.user) :
    visibleUserRoles db (Caller.auth u) = db.user_roles.filter (fun ur => ur.user_id == u) := by
  have hadmin : has_role db u AppRole.admin = false :=
    has_role_admin_false_of_only_user db u h
  unfold visibleUserRoles
  apply List.filter_congr
  intro ur _
  simp [selectAllowed, rowVisible, Policy.applies, userRolePolicies,
    usersViewOwnRoles, adminsManageAllRoles, callerIsAdmin,
    Caller.isAuthenticated, hadmin]

/-- C4 witness: user 7's only grant is the `user` grant, and their visible
`user_roles` rows are exactly their own row. -/
theorem user_reads_exactly_own_roles_witness :
    (∀ ur ∈ scenarioDb.user_roles, ur.user_id = 7 → ur.role = AppRole.user)
  ∧ visibleUserRoles scenarioDb (Caller.auth 7) = [userGrant] := by
  refine ⟨by decide, ?_⟩
  rw [user_reads_exactly_own_roles scenarioDb 7 (by decide)]
  decide

/-- C5: the `handle_updated_at` trigger — attached as `set_restaurants_updated_at`,
`set_menu_categories_updated_at` and `set_menu_items_updated_at` — rewrites
`NEW.updated_at` to the statement time on every `UPDATE` of a restaurant,
category or item row, whatever columns the `SET` list assigns and whatever
`updated_at` value a caller supplies, so with a monotone clock the stored
`updated_at` never decreases; the `SET` lists the repository's clients issue
never assign `created_at`, so an update leaves it untouched on all three
tables, and an `INSERT` sets both timestamp columns to the insert time via
the column defaults. -/
theorem updated_at_set_by_trigger (now : Nat)
    (row : MenuItemRow) (a : MenuItemAssign)
    (rrow : RestaurantRow) (ra : RestaurantAssign)
    (crow : MenuCategoryRow) (ca : MenuCategoryAssign)
    (id cid : Nat) (nm sl : String) (de : Option String) (pr : Int)
    (im : Option String) (vg vn sp av act : Bool) (ord : Int)
    (hclock : row.updated_at ≤ now) (hrclock : rrow.updated_at ≤ now)
    (hcclock : crow.updated_at ≤ now) :
    (updateMenuItemRow now row a).updated_at = now
  ∧ row.updated_at ≤ (updateMenuItemRow now row a).updated_at
  ∧ (updateMenuItemRow now row a).created_at = row.created_at
  ∧ (updateRestaurantRow now rrow ra).updated_at = now
  ∧ rrow.updated_at ≤ (updateRestaurantRow now rrow ra).updated_at
  ∧ (updateRestaurantRow now rrow ra).created_at = rrow.created_at
  ∧ (updateMenuCategoryRow now crow ca).updated_at = now
  ∧ crow.updated_at ≤ (updateMenuCategoryRow now crow ca).updated_at
  ∧ (updateMenuCategoryRow now crow ca).created_at = crow.created_at
  ∧ (insertMenuItemRow now id cid nm de pr im vg vn sp av ord).created_at = now
  ∧ (insertMenuItemRow now id cid nm de pr im vg vn sp av ord).updated_at = now
  ∧ (insertRestaurantRow now id nm sl act).created_at = now
  ∧ (insertRestaurantRow now id nm sl act).updated_at = now
  ∧ (insertMenuCategoryRow now id cid nm de ord act).created_at = now
  ∧ (insertMenuCategoryRow now id cid nm de ord act).updated_at = now := by
  refine ⟨rfl, ?_, rfl, rfl, ?_, rfl, rfl, ?_, rfl, rfl, rfl, rfl, rfl, rfl, rfl⟩
  · simpa [updateMenuItemRow, handle_updated_at] using hclock
  · simpa [updateRestaurantRow, handle_updated_at_restaurant] using hrclock
  · simpa [updateMenuCategoryRow, handle_updated_at_category] using hcclock

/-- C5 witness: updating the scenario item, restaurant and category at time 9,
each with a forged `updated_at = 4`, still stores `updated_at = 9` and keeps
each `created_at = 0`. -/
theorem updated_at_set_by_trigger_witness :
    (updateMenuItemRow 9 garlicBread { price := some 15900, updated_at := some 4 }).updated_at = 9
  ∧ garlicBread.updated_at ≤ (updateMenuItemRow 9 garlicBread { price := some 15900, updated_at := some 4 }).updated_at
  ∧ (updateMenuItemRow 9 garlicBread { price := some 15900, updated_at := some 4 }).created_at = garlicBread.created_at
  ∧ (updateRestaurantRow 9 pizzaPalace { name := some "Pizza Palace II", updated_at := some 4 }).updated_at = 9
  ∧ (updateRestaurantRow 9 pizzaPalace { name := some "Pizza Palace II", updated_at := some 4 }).created_at = pizzaPalace.created_at
  ∧ (updateMenuCategoryRow 9 starters { display_order := some 3, updated_at := some 4 }).updated_at = 9
  ∧ (updateMenuCategoryRow 9 starters { display_order := some 3, updated_at := some 4 }).created_at = starters.created_at := by
  have h := updated_at_set_by_trigger 9 garlicBread
    { price := some 15900, updated_at := some 4 }
    pizzaPalace { name := some "Pizza Palace II", updated_at := some 4 }
    starters { display_order := some 3, updated_at := some 4 }
    300 10 "Bruschetta" "bruschetta" none 12900 none true false false true true 2
    (by decide) (by decide) (by decide)
  exact ⟨h.1, h.2.1, h.2.2.1, h.2.2.2.1, h.2.2.2.2.2.1, h.2.2.2.2.2.2.1,
    h.2.2.2.2.2.2.2.2.1⟩

/-- C6: deleting a restaurant removes, in the one statement, every category
referencing it and every item referencing a removed category — afterwards no
remaining category references the restaurant and no remaining item references
a removed category, and exactly the N matching categories and M matching items
are gone from the respective tables. `deleteRestaurant` produces the post
state in a single step, so no intermediate state exists to observe. -/
theorem cascade_delete_removes_dependents (db : DB) (rid : Nat) :
    ((deleteRestaurant db rid).menu_categories.all
       (fun ca => !(ca.restaurant_id == rid))) = true
  ∧ ((deleteRestaurant db rid).menu_items.all
       (fun i => !(((db.menu_categories.filter (fun ca => ca.restaurant_id == rid)).map
          (fun ca => ca.id)).contains i.category_id))) = true
  ∧ (deleteRestaurant db rid).menu_categories.length
      + db.menu_categories.countP (fun ca => ca.restaurant_id == rid)
      = db.menu_categories.length
  ∧ (deleteRestaurant db rid).menu_items.length
      + db.menu_items.countP
          (fun i => ((db.menu_categories.filter (fun ca => ca.restaurant_id == rid)).map
            (fun ca => ca.id)).contains i.category_id)
      = db.menu_items.length := by
  refine ⟨?_, ?_, ?_, ?_⟩
  · simp only [deleteRestaurant, List.all_eq_true]
    intro ca hca
    exact (List.mem_filter.mp hca).2
  · simp only [deleteRestaurant, List.all_eq_true]
    intro i hi
    exact (List.mem_filter.mp hi).2
  · exact length_filter_not_add_countP (fun ca => ca.restaurant_id == rid) db.menu_categories
  · exact length_filter_not_add_countP _ db.menu_items

/-- A second global `user` grant for user 7: same user, same role, same
(null) restaurant scope as `userGrant`. -/
def dupUserGrant : UserRoleRow :=
  { id := 2000, user_id := 7, role := AppRole.user, restaurant_id := none,
    created_at := 5 }

/-- C7, counterexample: `userGrant` already gives user 7 a global (`NULL`
scope) `user` grant, yet inserting `dupUserGrant` — the same (user, role,
null-scope) triple — is accepted, because `UNIQUE(user_id, role,
restaurant_id)` treats `NULL`s as distinct; the resulting table holds the
triple twice, refuting "an insert that would duplicate an existing (user,
role, scope) triple is rejected" in the null-scope case. -/
theorem duplicate_null_scope_grant_accepted :
    (insertUserRole scenarioDb dupUserGrant).isSome = true
  ∧ ((insertUserRole scenarioDb dupUserGrant).getD scenarioDb).user_roles.countP
      (fun ur => ur.user_id == 7 && decide (ur.role = AppRole.user)
        && ur.restaurant_id == (none : Option Nat)) = 2 := by
  exact ⟨rfl, rfl⟩

theorem sqlNullableKeyEq_iff (a b : Option Nat) :
    sqlNullableKeyEq a b = true ↔ ∃ x, a = some x ∧ b = some x := by
  cases a with
  | none => simp [sqlNullableKeyEq]
  | some x =>
    cases b with
    | none => simp [sqlNullableKeyEq]
    | some y =>
      simp only [sqlNullableKeyEq, beq_iff_eq, Option.some_inj]
      constructor
      · intro h
        exact ⟨x, rfl, h.symm⟩
      · rintro ⟨z, hx, hy⟩
        exact hx.trans hy.symm

theorem userRoleConflict_iff (db : DB) (new : UserRoleRow) :
    userRoleConflict db new = true ↔
      ∃ ur, ur ∈ db.user_roles ∧ ur.user_id = new.user_id ∧ ur.role = new.role ∧
        ∃ x, ur.restaurant_id = some x ∧ new.restaurant_id = some x := by
  simp [userRoleConflict, List.any_eq_true, sqlNullableKeyEq_iff, and_assoc]

/-- C7, amended: an insert into `user_roles` is rejected exactly when an
existing row matches the new row's user and role with the same *non-null*
restaurant scope; duplicates of a null-scoped (global) grant are accepted,
since the SQL `UNIQUE` constraint treats `NULL` scopes as distinct. -/
theorem user_role_unique_on_nonnull_scope (db : DB) (new : UserRoleRow) :
    insertUserRole db new = none ↔
      ∃ ur, ur ∈ db.user_roles ∧ ur.user_id = new.user_id ∧ ur.role = new.role ∧
        ∃ x, ur.restaurant_id = some x ∧ new.restaurant_id = some x := by
  rw [← userRoleConflict_iff]
  unfold insertUserRole
  by_cases hc : userRoleConflict db new = true
  · simp [hc]
  · simp [hc]

/-- C7 witness: re-inserting user 3's admin grant with the same non-null
scope (restaurant 1) is rejected by the unique constraint. -/
theorem user_role_unique_on_nonnull_scope_witness :
    insertUserRole scenarioDb
      { id := 2001, user_id := 3, role := AppRole.admin, restaurant_id := some 1,
        created_at := 5 } = none := by
  exact (user_role_unique_on_nonnull_scope scenarioDb
    { id := 2001, user_id := 3, role := AppRole.admin, restaurant_id := some 1,
      created_at := 5 }).mpr ⟨adminGrant, by decide, rfl, rfl, 1, rfl, rfl⟩

/-- A form submission with a negative price, blocked by the `min="0"` input
validation. -/
def negPriceForm : MenuItemForm :=
  { category_id := 10, name := "Bad Deal", description := none, price := -100,
    image_url := none, is_vegetarian := false, is_vegan := false,
    is_spicy := false, display_order := 0 }

/-- A valid edit of the scenario item raising its price. -/
def priceEditForm : MenuItemForm :=
  { category_id := 10, name := "Garlic Bread", description := none, price := 15900,
    image_url := none, is_vegetarian := true, is_vegan := false,
    is_spicy := false, display_order := 0 }

/-- The `SET` list `handleSubmit` builds from `priceEditForm`. -/
def priceEditAssign : MenuItemAssign :=
  { category_id := some 10, name := some "Garlic Bread", description := some none,
    price := some 15900, image_url := some none, is_vegetarian := some true,
    is_vegan := some false, is_spicy := some false, display_order := some 0 }

/-- C8: a form submission with a negative price never reaches the store
(insert or update alike); a successful submission over a store of
non-negative prices leaves every stored price non-negative; and the anonymous
scenario fetch returns Garlic Bread with its price exactly 14900 cents
(149.00), the two-decimal value stored — no drift. -/
theorem price_nonnegative_and_exact (now : Nat) (db : DB) (form : MenuItemForm)
    (editing : Option Nat) (newId : Nat) :
    (form.price < 0 → submitMenuItemForm now db form editing newId = none)
  ∧ ((∀ i ∈ db.menu_items, 0 ≤ i.price) → ∀ db2,
       submitMenuItemForm now db form editing newId = some db2 →
       ∀ i ∈ db2.menu_items, 0 ≤ i.price)
  ∧ renderMenuPage scenarioDb "pizza-palace" = some ⟨pizzaPalace, [starters], [garlicBread]⟩
  ∧ garlicBread.price = 14900 := by
  refine ⟨?_, ?_, by decide, rfl⟩
  · intro hneg
    have hbad : priceInputOk form.price = false := by
      simp only [priceInputOk, decide_eq_false_iff_not, not_le]
      exact hneg
    simp [submitMenuItemForm, hbad]
  · intro hdb db2 hsub i hi
    by_cases hok : priceInputOk form.price = true
    · have hp : 0 ≤ form.price := by
        simpa [priceInputOk] using hok
      cases editing with
      | some itemId =>
        unfold submitMenuItemForm at hsub
        rw [if_pos hok] at hsub
        injection hsub with hsub
        subst hsub
        simp only [List.mem_map] at hi
        obtain ⟨j, hj, hji⟩ := hi
        by_cases hid : (j.id == itemId) = true
        · rw [if_pos hid] at hji
          subst hji
          simpa [updateMenuItemRow, applyMenuItemAssign, handle_updated_at] using hp
        · rw [if_neg hid] at hji
          subst hji
          exact hdb j hj
      | none =>
        unfold submitMenuItemForm at hsub
        rw [if_pos hok] at hsub
        injection hsub with hsub
        subst hsub
        simp only [List.mem_cons] at hi
        rcases hi with hi | hi
        · subst hi
          simpa [insertMenuItemRow] using hp
        · exact hdb i hi
    · simp [submitMenuItemForm, hok] at hsub

/-- C8 witness: the negative-price submission is rejected; the accepted price
edit leaves the updated row's price non-negative; the scenario price is
exactly 14900 cents. -/
theorem price_nonnegative_and_exact_witness :
    submitMenuItemForm 9 scenarioDb negPriceForm none 200 = none
  ∧ 0 ≤ (updateMenuItemRow 9 garlicBread priceEditAssign).price
  ∧ garlicBread.price = 14900 := by
  have h := price_nonnegative_and_exact 9 scenarioDb negPriceForm none 200
  have h2 := (price_nonnegative_and_exact 9 scenarioDb priceEditForm (some 100) 0).2.1
    (by decide)
    ((submitMenuItemForm 9 scenarioDb priceEditForm (some 100) 0).getD scenarioDb)
    rfl
  exact ⟨h.1 (by decide), h2 _ (by decide), h.2.2.2⟩

/-- C9: when every restaurant row carrying slug `s` is inactive and no row at
all carries slug `s2`, the public page for `s` and the page for `s2` are the
same observable outcome — the not-found view — so the public surface cannot
distinguish an inactive restaurant from a nonexistent one. -/
theorem inactive_equals_missing (db : DB) (s s2 : String)
    (h1 : ∀ r ∈ db.restaurants, r.slug = s → r.is_active = false)
    (h2 : ∀ r ∈ db.restaurants, r.slug ≠ s2) :
    renderMenuPage db s = renderMenuPage db s2 ∧ renderMenuPage db s = none := by
  have e1 : fetchRestaurantBySlug db s = none := by
    unfold fetchRestaurantBySlug
    have hfil : db.restaurants.filter (fun r => r.slug == s && r.is_active) = [] := by
      rw [List.filter_eq_nil_iff]
      intro r hr
      simp only [Bool.and_eq_true, beq_iff_eq, not_and]
      intro hs ha
      rw [h1 r hr hs] at ha
      cases ha
    rw [hfil]
    rfl
  have e2 : fetchRestaurantBySlug db s2 = none := by
    unfold fetchRestaurantBySlug
    have hfil : db.restaurants.filter (fun r => r.slug == s2 && r.is_active) = [] := by
      rw [List.filter_eq_nil_iff]
      intro r hr
      simp only [Bool.and_eq_true, beq_iff_eq, not_and]
      intro hs
      exact absurd hs (h2 r hr)
    rw [hfil]
    rfl
  constructor
  · rw [renderMenuPage, renderMenuPage, e1, e2]
  · rw [renderMenuPage, e1]

/-- C9 witness: the page for the inactive `ghost-kitchen` equals the page for
the unknown slug `nowhere`: both are the not-found outcome. -/
theorem inactive_equals_missing_witness :
    renderMenuPage scenarioDb "ghost-kitchen" = renderMenuPage scenarioDb "nowhere"
  ∧ renderMenuPage scenarioDb "ghost-kitchen" = none := by
  exact inactive_equals_missing scenarioDb "ghost-kitchen" "nowhere"
    (by decide) (by decide)

/-- C10: after deleting a restaurant, a `user_roles` row survives exactly when
it was there before and its `restaurant_id` scope does not reference the
deleted restaurant — the `ON DELETE CASCADE` on `user_roles.restaurant_id`
revokes every grant scoped to it, though null- and otherwise-scoped grants
survive. -/
theorem cascade_revokes_scoped_roles (db : DB) (rid : Nat) (ur : UserRoleRow) :
    ur ∈ (deleteRestaurant db rid).user_roles ↔
      ur ∈ db.user_roles ∧ ¬ur.restaurant_id = some rid := by
  simp [deleteRestaurant, List.mem_filter]

end Feast



